import Mathlib

/-!
Verification development for the btc-alerts-server repository.

The core pipeline (bar aggregation, indicator computation, signal scoring,
order execution, orchestration policy) is shallowly embedded here:

* prices and other venue quantities are modelled as exact rationals (`ℚ`),
* millisecond timestamps as integers (`ℤ`),
* the mutable class fields of each TypeScript class become a `structure`,
  and each method becomes a pure state-passing function,
* network effects (fetched positions, fetched balance, the venue's reply to
  an order) become explicit inputs, and outbound requests become an explicit
  trace of `ExecStep`s.

Source files embedded: `signal-detector.ts` (class `ServerSignalDetector`),
`binance-executor.ts` (class `ServerBinanceExecutor`), the trading-bot
orchestrator (class `ServerTradingBot`) and the price monitor
(class `ServerPriceMonitor`).
-/

namespace BtcAlerts

/-- A candle/bar, from `signal-detector.ts` (`interface Candle`).
`open` is a Lean keyword, so the field is named `open_`. -/
structure Candle where
  open_ : ℚ
  high : ℚ
  low : ℚ
  close : ℚ
  volume : ℚ
  timestamp : ℤ
deriving DecidableEq

/-- Signal direction, from the `'LONG' | 'SHORT'` union in `signal-detector.ts`. -/
inductive SignalType
  | LONG
  | SHORT
deriving DecidableEq

/-- The scoring factors pushed onto the `reasons` array in `detectSignal`.
The source stores display strings (some interpolating `rsi.toFixed(1)`);
only their identity matters here, so they are modelled as tags in push order. -/
inductive Reason
  | trendUpEMA
  | trendDownEMA
  | rsiFavorable
  | macdBullish
  | macdBearish
  | momentumPositive
  | momentumNegative
  | strongTrend
deriving DecidableEq

/-- A detected signal, from `signal-detector.ts` (`interface Signal`). -/
structure Signal where
  type : SignalType
  entryPrice : ℚ
  stopLoss : ℚ
  takeProfit1 : ℚ
  takeProfit2 : ℚ
  takeProfit3 : ℚ
  score : ℚ
  reason : List Reason
  timestamp : ℤ
deriving DecidableEq

/-- MACD triple returned by `calculateMACD`. -/
structure MACDResult where
  macd : ℚ
  signal : ℚ
  histogram : ℚ
deriving DecidableEq

/-- The mutable aggregation/analysis fields of class `ServerSignalDetector`:
`candles`, `lastCandleTime`, `currentCandle`, `lastSignalTime`.
(The run flag, callback list and timer handles are modelled separately,
with the timers, below.) -/
structure DetectorState where
  candles : List Candle
  lastCandleTime : ℤ
  currentCandle : Option Candle
  lastSignalTime : ℤ
deriving DecidableEq

/-- `maxCandles = 200` in `ServerSignalDetector`. -/
def maxCandles : ℕ := 200

/-- `candleInterval = 5 * 60 * 1000` ms in `ServerSignalDetector`. -/
def candleInterval : ℤ := 5 * 60 * 1000

/-- `minSignalInterval = 5 * 60 * 1000` ms in `ServerSignalDetector`. -/
def minSignalInterval : ℤ := 5 * 60 * 1000

/-- The freshly constructed detector: `candles = []`, `lastCandleTime = 0`,
`currentCandle = null`, `lastSignalTime = 0`. -/
def initDetector : DetectorState :=
  { candles := [], lastCandleTime := 0, currentCandle := none, lastSignalTime := 0 }

/-- `processPrice(price, timestamp)` from `signal-detector.ts`.
`Math.floor(timestamp / this.candleInterval) * this.candleInterval` is floor
division, i.e. `Int.fdiv`; `this.candles.shift()` removes the oldest entry,
i.e. `List.tail`. -/
def processPrice (s : DetectorState) (price : ℚ) (timestamp : ℤ) : DetectorState :=
  let candleTime := (Int.fdiv timestamp candleInterval) * candleInterval
  if candleTime > s.lastCandleTime then
    let candles' :=
      match s.currentCandle with
      | some c =>
        let pushed := s.candles ++ [c]
        if pushed.length > maxCandles then pushed.tail else pushed
      | none => s.candles
    let fresh : Candle :=
      { open_ := price, high := price, low := price, close := price,
        volume := 0, timestamp := candleTime }
    { s with candles := candles', currentCandle := some fresh, lastCandleTime := candleTime }
  else
    match s.currentCandle with
    | some c =>
      let updated : Candle :=
        { c with high := max c.high price, low := min c.low price, close := price }
      { s with currentCandle := some updated }
    | none => s

/-- Feed a whole tick sequence (price, eventTimeMs) through `processPrice`. -/
def runTicks (s : DetectorState) (ticks : List (ℚ × ℤ)) : DetectorState :=
  ticks.foldl (fun st t => processPrice st t.1 t.2) s

/-- `calculateEMA(data, period)` from `signal-detector.ts`: seed with the
simple average of the first `period` values, then fold
`ema = value*k + ema*(1-k)` with `k = 2/(period+1)` over the rest.
If fewer than `period` points exist it returns `data[data.length - 1]`
(modelled as `getLastD data 0`; the source never evaluates this fallback on
an empty list). -/
def calculateEMA (data : List ℚ) (period : ℕ) : ℚ :=
  if data.length < period then data.getLastD 0
  else
    let k : ℚ := 2 / (period + 1)
    let seed := (data.take period).sum / period
    (data.drop period).foldl (fun ema x => x * k + ema * (1 - k)) seed

/-- `calculateRSI(data, period)` from `signal-detector.ts`: over the last
`period` consecutive deltas, sum positive deltas as gains and negated
non-positive deltas as losses; `RSI = 100 - 100/(1+RS)`, `100` when the
average loss is `0`, `50` when fewer than `period+1` points exist. -/
def calculateRSI (data : List ℚ) (period : ℕ) : ℚ :=
  if data.length < period + 1 then 50
  else
    let window := data.drop (data.length - (period + 1))
    let changes := List.zipWith (fun prev cur => cur - prev) window window.tail
    let gains := (changes.filter (fun c => decide (0 < c))).sum
    let losses := -((changes.filter (fun c => decide (c ≤ 0))).sum)
    let avgGain := gains / period
    let avgLoss := losses / period
    if avgLoss = 0 then 100
    else 100 - 100 / (1 + avgGain / avgLoss)

/-- `calculateMACD(data)` from `signal-detector.ts`: `macd = EMA12 - EMA26`,
`signal = macd * 0.9` (the source's fixed damping approximation),
`histogram = macd - signal`. -/
def calculateMACD (data : List ℚ) : MACDResult :=
  let ema12 := calculateEMA data 12
  let ema26 := calculateEMA data 26
  let macd := ema12 - ema26
  let signal := macd * (9 / 10)
  { macd := macd, signal := signal, histogram := macd - signal }

/-- True range of a bar given its predecessor, the `tr` computed inside
`calculateATR`: `max(high-low, |high-prevClose|, |low-prevClose|)`. -/
def trueRange (previous current : Candle) : ℚ :=
  max (current.high - current.low)
    (max |current.high - previous.close| |current.low - previous.close|)

/-- `calculateATR(period)` from `signal-detector.ts`. With fewer than
`period+1` closed candles it falls back to 1% of
`this.currentCandle?.close || 50000` (JS `||` falls through on `0`).
Otherwise it sums the true range over consecutive pairs of the last
`period+1` candles (`slice(-period - 1)`) and divides by `period`. -/
def calculateATR (s : DetectorState) (period : ℕ) : ℚ :=
  if s.candles.length < period + 1 then
    (match s.currentCandle with
     | some c => if c.close = 0 then 50000 else c.close
     | none => (50000 : ℚ)) * (1 / 100)
  else
    let recentCandles := s.candles.drop (s.candles.length - (period + 1))
    (List.zipWith trueRange recentCandles recentCandles.tail).sum / period

/-- The trend step of `detectSignal`: `price > ema20 && ema20 > ema50` sets
`type = 'LONG'`, `price < ema20 && ema20 < ema50` sets `type = 'SHORT'`,
otherwise `type` stays `null`. -/
def trendType (price ema20 ema50 : ℚ) : Option SignalType :=
  if price > ema20 ∧ ema20 > ema50 then some SignalType.LONG
  else if price < ema20 ∧ ema20 < ema50 then some SignalType.SHORT
  else none

/-- The composite score accumulated by `detectSignal`, factor by factor in
source order: trend (+25), RSI band (+20), MACD alignment (+25),
EMA20-relative momentum (+15), trend strength (+15). -/
def signalScore (price ema20 ema50 rsi : ℚ) (m : MACDResult) : ℚ :=
  let t := trendType price ema20 ema50
  (if t.isSome then 25 else 0)
  + (if t = some SignalType.LONG ∧ rsi > 40 ∧ rsi < 70 then 20
     else if t = some SignalType.SHORT ∧ rsi < 60 ∧ rsi > 30 then 20
     else 0)
  + (if t = some SignalType.LONG ∧ m.histogram > 0 ∧ m.macd > m.signal then 25
     else if t = some SignalType.SHORT ∧ m.histogram < 0 ∧ m.macd < m.signal then 25
     else 0)
  + (let distanceFromEMA := (price - ema20) / ema20 * 100
     if t = some SignalType.LONG ∧ distanceFromEMA > 1 / 10 ∧ distanceFromEMA < 2 then 15
     else if t = some SignalType.SHORT ∧ distanceFromEMA < -(1 / 10) ∧ distanceFromEMA > -2
       then 15
     else 0)
  + (let emaDiff := (ema20 - ema50) / ema50 * 100
     if |emaDiff| > 1 / 2 then 15 else 0)

/-- The `reasons` list accumulated by `detectSignal`, in push order,
mirroring the conditions of `signalScore`. -/
def signalReasons (price ema20 ema50 rsi : ℚ) (m : MACDResult) : List Reason :=
  let t := trendType price ema20 ema50
  (match t with
   | some SignalType.LONG => [Reason.trendUpEMA]
   | some SignalType.SHORT => [Reason.trendDownEMA]
   | none => [])
  ++ (if t = some SignalType.LONG ∧ rsi > 40 ∧ rsi < 70 then [Reason.rsiFavorable]
      else if t = some SignalType.SHORT ∧ rsi < 60 ∧ rsi > 30 then [Reason.rsiFavorable]
      else [])
  ++ (if t = some SignalType.LONG ∧ m.histogram > 0 ∧ m.macd > m.signal then [Reason.macdBullish]
      else if t = some SignalType.SHORT ∧ m.histogram < 0 ∧ m.macd < m.signal then
        [Reason.macdBearish]
      else [])
  ++ (let distanceFromEMA := (price - ema20) / ema20 * 100
      if t = some SignalType.LONG ∧ distanceFromEMA > 1 / 10 ∧ distanceFromEMA < 2 then
        [Reason.momentumPositive]
      else if t = some SignalType.SHORT ∧ distanceFromEMA < -(1 / 10) ∧ distanceFromEMA > -2
        then [Reason.momentumNegative]
      else [])
  ++ (let emaDiff := (ema20 - ema50) / ema50 * 100
      if |emaDiff| > 1 / 2 then [Reason.strongTrend] else [])

/-- `detectSignal(price, ema20, ema50, rsi, macd)` from `signal-detector.ts`:
emits a signal only when a direction was established and `score >= 60`;
stop/take-profit levels derive from `calculateATR()` (hence the state
argument); `now` stands for the `Date.now()` stamped into the signal. -/
def detectSignal (s : DetectorState) (price ema20 ema50 rsi : ℚ) (m : MACDResult)
    (now : ℤ) : Option Signal :=
  match trendType price ema20 ema50 with
  | none => none
  | some t =>
    let score := signalScore price ema20 ema50 rsi m
    if score ≥ 60 then
      let atr := calculateATR s 14
      let stopDistance := atr * (3 / 2)
      let tpMultiplier : ℚ := match t with | SignalType.LONG => 1 | SignalType.SHORT => -1
      let sl := match t with
        | SignalType.LONG => price - stopDistance
        | SignalType.SHORT => price + stopDistance
      some { type := t, entryPrice := price, stopLoss := sl,
             takeProfit1 := price + stopDistance * (3 / 2) * tpMultiplier,
             takeProfit2 := price + stopDistance * (5 / 2) * tpMultiplier,
             takeProfit3 := price + stopDistance * 4 * tpMultiplier,
             score := score, reason := signalReasons price ema20 ema50 rsi m,
             timestamp := now }
    else none

/-- `this.currentCandle?.close || closes[closes.length - 1]` from
`analyzeMarket`: the open bar's close when present and non-zero (JS `||`
falls through on `0`), otherwise the last element of History's closes. -/
def currentPriceOf (s : DetectorState) : ℚ :=
  let closes := s.candles.map (fun c => c.close)
  match s.currentCandle with
  | some c => if c.close = 0 then closes.getLastD 0 else c.close
  | none => closes.getLastD 0

/-- The indicator quadruple `(ema20, ema50, rsi, macd)` computed by
`analyzeMarket` over `closes = this.candles.map(c => c.close)` — the closes
of History's closed bars only. -/
def analysisIndicators (s : DetectorState) : ℚ × ℚ × ℚ × MACDResult :=
  let closes := s.candles.map (fun c => c.close)
  (calculateEMA closes 20, calculateEMA closes 50, calculateRSI closes 14,
   calculateMACD closes)

/-- `analyzeMarket()` from `signal-detector.ts`, with `now` standing for
`Date.now()`. Returns the signal delivered to the subscriber callbacks (if
any) together with the updated detector state. -/
def analyzeMarket (s : DetectorState) (now : ℤ) : Option Signal × DetectorState :=
  if s.candles.length < 50 then (none, s)
  else if now - s.lastSignalTime < minSignalInterval then (none, s)
  else
    match detectSignal s (currentPriceOf s) (analysisIndicators s).1
        (analysisIndicators s).2.1 (analysisIndicators s).2.2.1
        (analysisIndicators s).2.2.2 now with
    | some sig => (some { sig with timestamp := now }, { s with lastSignalTime := now })
    | none => (none, s)

/-- The closing-price series the specification describes for the indicator
computation: History's closes with the current open bar's close appended as
the final element. Modelled from the spec for comparison with
`analysisIndicators`. -/
def specCloses (s : DetectorState) : List ℚ :=
  s.candles.map (fun c => c.close)
    ++ (match s.currentCandle with | some c => [c.close] | none => [])

/-- The indicator quadruple computed over `specCloses` — what the
specification claims `analyzeMarket` uses. -/
def specIndicators (s : DetectorState) : ℚ × ℚ × ℚ × MACDResult :=
  (calculateEMA (specCloses s) 20, calculateEMA (specCloses s) 50,
   calculateRSI (specCloses s) 14, calculateMACD (specCloses s))

/-- A venue position record, from `binance-executor.ts` (`interface
Position`). The source carries decimal strings and applies `parseFloat`;
the numeric fields are modelled as their parsed values. -/
structure Position where
  symbol : String
  positionAmt : ℚ
  entryPrice : ℚ
  unRealizedProfit : ℚ
  leverage : ℚ
  marginType : String
deriving DecidableEq

/-- `interface OrderResult` from `binance-executor.ts`. -/
structure OrderResult where
  success : Bool
  orderId : Option String
  error : Option String
  executedQty : Option ℚ
  avgPrice : Option ℚ
deriving DecidableEq

/-- An `OrderResult` carrying only a failure reason. -/
def failResult (e : String) : OrderResult :=
  { success := false, orderId := none, error := some e,
    executedQty := none, avgPrice := none }

/-- An outbound authenticated request issued by `executeSignal`, in issue
order. `placeOrder` is the order-placement request (`POST /fapi/v1/order`
via `openMarketOrder`); the other two are the idempotent configuration
calls that precede it. -/
inductive ExecStep
  | setLeverage (symbol : String) (leverage : ℚ)
  | setMarginType (symbol : String) (marginType : String)
  | placeOrder (symbol : String) (side : String) (quantity : ℚ)
deriving DecidableEq

/-- The network environment `executeSignal` observes: the open positions
returned by `getOpenPositions()` (already filtered to non-zero amounts),
the balance returned by `getBalance()`, and the venue's reply to the market
order should one be placed. -/
structure ExecEnv where
  positions : List Position
  balance : ℚ
  orderOutcome : OrderResult
deriving DecidableEq

/-- The signal argument of `executeSignal` in `binance-executor.ts`. -/
structure ExecSignalReq where
  type : SignalType
  entryPrice : ℚ
  stopLoss : ℚ
  takeProfit : ℚ
  accountPercentage : ℚ
  leverage : ℚ
deriving DecidableEq

/-- `calculatePositionSize(accountPercentage, entryPrice, leverage)` from
`binance-executor.ts`, with the awaited `getBalance()` result as explicit
first argument: `quantity = balance * (pct/100) * leverage / entryPrice`,
truncated to 3 decimals by `Math.floor(quantity * 1000) / 1000`. -/
def calculatePositionSize (balance accountPercentage entryPrice leverage : ℚ) : ℚ :=
  let positionValue := balance * (accountPercentage / 100)
  let leveragedValue := positionValue * leverage
  let quantity := leveragedValue / entryPrice
  ((⌊quantity * 1000⌋ : ℤ) : ℚ) / 1000

/-- `executeSignal(signal)` from `binance-executor.ts`. Returns the
`OrderResult` together with the trace of outbound requests it issued.
If a position for `BTCUSDT` is already open it fails immediately with
`'Posição já aberta'` and issues nothing; otherwise it configures leverage
and margin, sizes the position, rejects a non-positive quantity with
`'Quantidade inválida'`, and finally places the market order. -/
def executeSignal (env : ExecEnv) (signal : ExecSignalReq) : OrderResult × List ExecStep :=
  let symbol := "BTCUSDT"
  match env.positions.find? (fun p => p.symbol == symbol) with
  | some _ => (failResult "Posição já aberta", [])
  | none =>
    let steps := [ExecStep.setLeverage symbol signal.leverage,
                  ExecStep.setMarginType symbol "ISOLATED"]
    let quantity :=
      calculatePositionSize env.balance signal.accountPercentage signal.entryPrice
        signal.leverage
    if quantity ≤ 0 then (failResult "Quantidade inválida", steps)
    else
      let side := match signal.type with
        | SignalType.LONG => "BUY"
        | SignalType.SHORT => "SELL"
      (env.orderOutcome, steps ++ [ExecStep.placeOrder symbol side quantity])

/-- `interface BotConfig` from the trading-bot orchestrator. -/
structure BotConfig where
  enabled : Bool
  apiKey : String
  apiSecret : String
  testnet : Bool
  leverage : ℚ
  accountPercentage : ℚ
  minScore : ℚ
  marginType : String
deriving DecidableEq

/-- Log entry kinds of `interface BotLog`. -/
inductive LogType
  | info
  | signal
  | order
  | error
deriving DecidableEq

/-- A `BotLog` entry. The source also stores a display `message` string
(interpolating prices via `toFixed`); the message text is presentation only
and is not modelled. -/
structure BotLogEntry where
  timestamp : ℤ
  type : LogType
deriving DecidableEq

/-- The mutable fields of class `ServerTradingBot`: `config`, `isRunning`,
`lastOrderTime`, `totalOrders`, `logs`. -/
structure BotState where
  config : Option BotConfig
  isRunning : Bool
  lastOrderTime : ℤ
  totalOrders : ℕ
  logs : List BotLogEntry
deriving DecidableEq

/-- `minOrderInterval = 5 * 60 * 1000` ms in `ServerTradingBot`. -/
def minOrderInterval : ℤ := 5 * 60 * 1000

/-- `maxLogs = 100` in `ServerTradingBot`. -/
def maxLogs : ℕ := 100

/-- `addLog(type, message)`: unshift the entry, then truncate to
`maxLogs` entries (newest first). -/
def addLog (s : BotState) (now : ℤ) (t : LogType) : BotState :=
  let logs' := { timestamp := now, type := t } :: s.logs
  { s with logs := if logs'.length > maxLogs then logs'.take maxLogs else logs' }

/-- `handleSignal(signal)` from the trading-bot orchestrator, with `now`
standing for `Date.now()`, `configured` for
`serverBinanceExecutor.isConfigured()`, and `execResult` for the awaited
result of `serverBinanceExecutor.executeSignal(...)` (consulted only on the
path that actually executes). The policy gate runs in source order:
disabled ⇒ drop; `score < (minScore || 60)` ⇒ drop; order-interval cooldown
⇒ drop; gateway unconfigured ⇒ notify-only. On an executed order, success
advances `lastOrderTime` and increments `totalOrders`; failure leaves both
unchanged. Push notifications are delivered by a collaborator and are not
part of the modelled state. -/
def handleSignal (s : BotState) (now : ℤ) (sig : Signal) (configured : Bool)
    (execResult : OrderResult) : BotState :=
  let s := addLog s now LogType.signal
  match s.config with
  | none => addLog s now LogType.info
  | some cfg =>
    if !cfg.enabled then addLog s now LogType.info
    else if sig.score < (if cfg.minScore = 0 then 60 else cfg.minScore) then
      addLog s now LogType.info
    else if now - s.lastOrderTime < minOrderInterval then addLog s now LogType.info
    else if !configured then addLog s now LogType.info
    else
      let s := addLog s now LogType.order
      if execResult.success then
        addLog { s with lastOrderTime := now, totalOrders := s.totalOrders + 1 }
          now LogType.order
      else addLog s now LogType.error

/-- Timer bookkeeping of class `ServerPriceMonitor` (the stream client).
Each created timer gets a fresh id from `nextId`. `pingInterval` is the one
timer handle the class stores in a field (the 30s heartbeat `setInterval`);
`pendingTimeouts` is the multiset of live one-shot timers created by bare
`setTimeout` calls whose handles the source never stores — the reconnect
backoff timer and the 60s reconnect-cooldown timer inside
`scheduleReconnect`. A timer is pending until it fires or is cleared; since
no field refers to the one-shot handles, no method can clear them. -/
structure MonitorTimerState where
  isRunning : Bool
  reconnectAttempts : ℕ
  pingInterval : Option ℕ
  pendingTimeouts : List ℕ
  nextId : ℕ
deriving DecidableEq

/-- The freshly constructed price monitor. -/
def pmInit : MonitorTimerState :=
  { isRunning := false, reconnectAttempts := 0, pingInterval := none,
    pendingTimeouts := [], nextId := 0 }

/-- `start()`: sets the run flag and connects; `connect()` itself creates
no timer (timers appear on the `open` and `close` socket events). -/
def pmStart (s : MonitorTimerState) : MonitorTimerState :=
  if s.isRunning then s else { s with isRunning := true }

/-- The socket `open` handler: resets the attempt counter and starts the
heartbeat `setInterval`, storing its handle in `pingInterval`. -/
def pmOnOpen (s : MonitorTimerState) : MonitorTimerState :=
  { s with reconnectAttempts := 0, pingInterval := some s.nextId, nextId := s.nextId + 1 }

/-- `scheduleReconnect()`: when the attempt cap (10) is reached, a 60s
cooldown `setTimeout` is created; otherwise a backoff `setTimeout` is
created and the attempt counter is incremented. Neither handle is stored
in any field. -/
def pmScheduleReconnect (s : MonitorTimerState) : MonitorTimerState :=
  if s.reconnectAttempts ≥ 10 then
    { s with pendingTimeouts := s.pendingTimeouts ++ [s.nextId], nextId := s.nextId + 1 }
  else
    { s with reconnectAttempts := s.reconnectAttempts + 1,
             pendingTimeouts := s.pendingTimeouts ++ [s.nextId], nextId := s.nextId + 1 }

/-- The socket `close` handler: clears the heartbeat interval and, while
the run flag is set, schedules a reconnection. -/
def pmOnClose (s : MonitorTimerState) : MonitorTimerState :=
  let s := { s with pingInterval := none }
  if s.isRunning then pmScheduleReconnect s else s

/-- `stop()` on the price monitor: clears the run flag, clears the
heartbeat interval (`clearInterval` + nulling the field) and closes the
socket. It touches no other timer. -/
def pmStop (s : MonitorTimerState) : MonitorTimerState :=
  { s with isRunning := false, pingInterval := none }

/-- Timer bookkeeping of class `ServerSignalDetector` (the signal engine).
`analysisInterval` is the stored handle of the 60s periodic-analysis
`setInterval`; `pendingTimeouts` holds the one-shot 5s first-analysis
`setTimeout` created in `start()`, whose handle the source never stores. -/
structure DetectorTimerState where
  isRunning : Bool
  analysisInterval : Option ℕ
  pendingTimeouts : List ℕ
  nextId : ℕ
deriving DecidableEq

/-- The freshly constructed signal detector (timer view). -/
def sdInit : DetectorTimerState :=
  { isRunning := false, analysisInterval := none, pendingTimeouts := [], nextId := 0 }

/-- `start()` on the signal detector (timer view): guarded by the run flag;
creates the periodic-analysis `setInterval` (handle stored) and the 5s
first-analysis `setTimeout` (handle discarded). -/
def sdStart (s : DetectorTimerState) : DetectorTimerState :=
  if s.isRunning then s
  else
    { s with isRunning := true, analysisInterval := some s.nextId,
             pendingTimeouts := s.pendingTimeouts ++ [s.nextId + 1],
             nextId := s.nextId + 2 }

/-- `stop()` on the signal detector: clears the run flag and the
periodic-analysis interval (`clearInterval` + nulling the field). It
touches no other timer. -/
def sdStop (s : DetectorTimerState) : DetectorTimerState :=
  { s with isRunning := false, analysisInterval := none }

/-! ### Auxiliary definitions used by the theorems -/

/-- The list of true ranges over consecutive pairs of the last 15 closed
candles — the terms `calculateATR` (period 14) averages. -/
def atrTrueRanges (s : DetectorState) : List ℚ :=
  let recent := s.candles.drop (s.candles.length - 15)
  List.zipWith trueRange recent recent.tail

/-- Invariant of the aggregation state maintained by `processPrice`:
History is strictly increasing in `timestamp` and bounded by `maxCandles`,
every closed candle's bucket precedes `lastCandleTime`, and the open
candle (when present) sits exactly at `lastCandleTime`. -/
def DetectorInv (s : DetectorState) : Prop :=
  s.candles.Pairwise (fun a b => a.timestamp < b.timestamp) ∧
  (∀ c ∈ s.candles, c.timestamp < s.lastCandleTime) ∧
  (∀ c, s.currentCandle = some c → c.timestamp = s.lastCandleTime) ∧
  s.candles.length ≤ maxCandles

/-- A flat closed candle at price 100. -/
def exFlatCandle : Candle :=
  { open_ := 100, high := 100, low := 100, close := 100, volume := 0, timestamp := 0 }

/-- A detector state with 50 flat closed bars and an open bar whose close
(50) differs from History's closes. -/
def exC6 : DetectorState :=
  { candles := List.replicate 50 exFlatCandle, lastCandleTime := 15000000,
    currentCandle := some { exFlatCandle with close := 50, timestamp := 15000000 },
    lastSignalTime := 0 }

/-- A closed candle with 10 points of range, bucket `i`. -/
def exRangeCandle (i : ℤ) : Candle :=
  { open_ := 100, high := 105, low := 95, close := 100, volume := 0, timestamp := i }

/-- A detector state with exactly 15 closed bars. -/
def exATR : DetectorState :=
  { candles := (List.range 15).map (fun i => exRangeCandle i),
    lastCandleTime := 4500000, currentCandle := none, lastSignalTime := 0 }

/-- An open candle with non-zero close, bucket 300000. -/
def exOpenCandle : Candle :=
  { open_ := 100, high := 103, low := 99, close := 102, volume := 0, timestamp := 300000 }

/-- A detector state with a single closed bar and an open bar with
non-zero close — the ATR fallback's ordinary case. -/
def exATRSmall : DetectorState :=
  { candles := [exFlatCandle], lastCandleTime := 300000,
    currentCandle := some exOpenCandle, lastSignalTime := 0 }

/-- A detector state with a single closed bar (close 100) and no open bar
— there the ATR fallback substitutes the constant 50000 for the price. -/
def exATRNoOpen : DetectorState :=
  { candles := [exFlatCandle], lastCandleTime := 300000,
    currentCandle := none, lastSignalTime := 0 }

/-- A detector state as left by historical seeding: closed bars, no open
bar, `lastCandleTime` at the newest seeded bucket. -/
def exSeeded : DetectorState :=
  { candles := [exFlatCandle], lastCandleTime := 300000,
    currentCandle := none, lastSignalTime := 0 }

/-- An open BTCUSDT position as returned by the venue. -/
def exPosition : Position :=
  { symbol := "BTCUSDT", positionAmt := 1 / 2, entryPrice := 50000,
    unRealizedProfit := 0, leverage := 15, marginType := "ISOLATED" }

/-- An execution environment in which a BTCUSDT position is already open. -/
def exEnv : ExecEnv :=
  { positions := [exPosition], balance := 1000,
    orderOutcome := { success := true, orderId := some "1", error := none,
                      executedQty := some (3 / 100), avgPrice := some 50000 } }

/-- A signal request handed to `executeSignal`. -/
def exSignalReq : ExecSignalReq :=
  { type := SignalType.LONG, entryPrice := 50000, stopLoss := 49000,
    takeProfit := 51500, accountPercentage := 10, leverage := 15 }

/-- An orchestrator configuration with trading enabled. -/
def exCfg : BotConfig :=
  { enabled := true, apiKey := "k", apiSecret := "s", testnet := true,
    leverage := 15, accountPercentage := 10, minScore := 60,
    marginType := "ISOLATED" }

/-- An orchestrator state that passes the policy gate at `now = 300000`. -/
def exBotState : BotState :=
  { config := some exCfg, isRunning := true, lastOrderTime := 0,
    totalOrders := 0, logs := [] }

/-- A detected signal with score 75. -/
def exSignal : Signal :=
  { type := SignalType.LONG, entryPrice := 50000, stopLoss := 49000,
    takeProfit1 := 51500, takeProfit2 := 52500, takeProfit3 := 54000,
    score := 75, reason := [], timestamp := 0 }

/-- A failed order result. -/
def exFailResult : OrderResult := failResult "Margin is insufficient"

/-- A successful order result. -/
def exOkResult : OrderResult :=
  { success := true, orderId := some "42", error := none,
    executedQty := some (3 / 100), avgPrice := some 50000 }

/-! ### Theorems -/

/-- C9: the computed MACD triple satisfies `signal = macd * 0.9` and
`histogram = macd * 0.1` exactly (arithmetic is modelled exactly over
`ℚ`), so `histogram > 0`, `macd > signal` and `macd > 0` are all
equivalent, and the MACD-alignment scoring condition for a direction is
equivalent to the sign of `EMA(12) - EMA(26)`. -/
theorem calculateMACD_algebra (data : List ℚ) :
    (calculateMACD data).signal = (calculateMACD data).macd * (9 / 10) ∧
    (calculateMACD data).histogram = (calculateMACD data).macd * (1 / 10) ∧
    ((calculateMACD data).histogram > 0 ↔
      (calculateMACD data).macd > (calculateMACD data).signal) ∧
    ((calculateMACD data).macd > (calculateMACD data).signal ↔ (calculateMACD data).macd > 0) ∧
    (((calculateMACD data).histogram > 0 ∧ (calculateMACD data).macd > (calculateMACD data).signal)
      ↔ calculateEMA data 12 > calculateEMA data 26) ∧
    (((calculateMACD data).histogram < 0 ∧ (calculateMACD data).macd < (calculateMACD data).signal)
      ↔ calculateEMA data 12 < calculateEMA data 26) := by
  have h : calculateMACD data =
      { macd := calculateEMA data 12 - calculateEMA data 26,
        signal := (calculateEMA data 12 - calculateEMA data 26) * (9 / 10),
        histogram := (calculateEMA data 12 - calculateEMA data 26)
          - (calculateEMA data 12 - calculateEMA data 26) * (9 / 10) } := rfl
  rw [h]
  set d := calculateEMA data 12 - calculateEMA data 26 with hd
  have hsub : calculateEMA data 12 > calculateEMA data 26 ↔ 0 < d := by
    rw [hd]; exact (sub_pos).symm
  have hsub' : calculateEMA data 12 < calculateEMA data 26 ↔ d < 0 := by
    rw [hd]; exact (sub_neg).symm
  refine ⟨rfl, by ring, ?_, ?_, ?_, ?_⟩
  · constructor <;> intro hx <;> nlinarith
  · constructor <;> intro hx <;> nlinarith
  · rw [hsub]; constructor
    · rintro ⟨hx, -⟩; nlinarith
    · intro hx; constructor <;> nlinarith
  · rw [hsub']; constructor
    · rintro ⟨hx, -⟩; nlinarith
    · intro hx; constructor <;> nlinarith

/-- C10: a tick whose bucket start does not exceed `lastCandleTime`, in a
state with no open bar (as immediately after historical seeding), leaves
the aggregator state completely unchanged. -/
theorem processPrice_stale_tick_no_open_bar (s : DetectorState) (price : ℚ) (timestamp : ℤ)
    (hcur : s.currentCandle = none)
    (hbucket : Int.fdiv timestamp candleInterval * candleInterval ≤ s.lastCandleTime) :
    processPrice s price timestamp = s := by
  unfold processPrice
  simp only [hcur]
  rw [if_neg (not_lt.mpr hbucket)]

/-- Witness for C10 at a concrete seeded state and stale tick. -/
theorem processPrice_stale_tick_no_open_bar_witness :
    exSeeded.currentCandle = none ∧
    Int.fdiv 200000 candleInterval * candleInterval ≤ exSeeded.lastCandleTime ∧
    processPrice exSeeded 100 200000 = exSeeded :=
  ⟨rfl, by decide,
    processPrice_stale_tick_no_open_bar exSeeded 100 200000 rfl (by decide)⟩

/-- C4: `calculatePositionSize` returns
`floor(balance * pct/100 * leverage / entryPrice * 1000) / 1000`, and at
balance 1000, pct 10, leverage 15, entry 50000 it returns 0.030. -/
theorem calculatePositionSize_formula :
    (∀ balance accountPercentage leverage entryPrice : ℚ,
        0 < balance → 0 < accountPercentage → 0 < leverage → 0 < entryPrice →
        calculatePositionSize balance accountPercentage entryPrice leverage =
          ((⌊balance * accountPercentage / 100 * leverage / entryPrice * 1000⌋ : ℤ) : ℚ) / 1000) ∧
    calculatePositionSize 1000 10 50000 15 = 3 / 100 := by
  constructor
  · intro b p l e _ _ _ _
    show ((⌊b * (p / 100) * l / e * 1000⌋ : ℤ) : ℚ) / 1000 = _
    have : b * (p / 100) * l / e * 1000 = b * p / 100 * l / e * 1000 := by ring
    rw [this]
  · unfold calculatePositionSize
    norm_num

/-- Witness for C4 at the spec scenario's inputs. -/
theorem calculatePositionSize_formula_witness :
    calculatePositionSize 1000 10 50000 15 =
      ((⌊(1000 : ℚ) * 10 / 100 * 15 / 50000 * 1000⌋ : ℤ) : ℚ) / 1000 :=
  calculatePositionSize_formula.1 1000 10 15 50000 (by norm_num) (by norm_num)
    (by norm_num) (by norm_num)

/-- C2: when an open BTCUSDT position exists, `executeSignal` fails with
the pre-existing-position reason and issues no outbound request at all —
in particular no order placement. -/
theorem executeSignal_duplicate_position_guard (env : ExecEnv) (signal : ExecSignalReq)
    (h : ∃ p ∈ env.positions, p.symbol = "BTCUSDT") :
    (executeSignal env signal).1.success = false ∧
    (executeSignal env signal).1.error = some "Posição já aberta" ∧
    (executeSignal env signal).2 = [] := by
  obtain ⟨p, hp, hsym⟩ := h
  have hfind : ∃ q, env.positions.find? (fun r => r.symbol == "BTCUSDT") = some q := by
    cases hf : env.positions.find? (fun r => r.symbol == "BTCUSDT") with
    | none =>
      exfalso
      have := List.find?_eq_none.mp hf p hp
      simp [hsym] at this
    | some q => exact ⟨q, rfl⟩
  obtain ⟨q, hq⟩ := hfind
  unfold executeSignal
  simp only [hq]
  simp [failResult]

/-- Witness for C2 at a concrete environment holding an open position. -/
theorem executeSignal_duplicate_position_guard_witness :
    (∃ p ∈ exEnv.positions, p.symbol = "BTCUSDT") ∧
    (executeSignal exEnv exSignalReq).1.success = false ∧
    (executeSignal exEnv exSignalReq).1.error = some "Posição já aberta" ∧
    (executeSignal exEnv exSignalReq).2 = [] := by
  have h : ∃ p ∈ exEnv.positions, p.symbol = "BTCUSDT" :=
    ⟨exPosition, List.mem_singleton.mpr rfl, rfl⟩
  exact ⟨h, executeSignal_duplicate_position_guard exEnv exSignalReq h⟩

theorem addLog_config (s : BotState) (now : ℤ) (t : LogType) :
    (addLog s now t).config = s.config := rfl

theorem addLog_isRunning (s : BotState) (now : ℤ) (t : LogType) :
    (addLog s now t).isRunning = s.isRunning := rfl

theorem addLog_lastOrderTime (s : BotState) (now : ℤ) (t : LogType) :
    (addLog s now t).lastOrderTime = s.lastOrderTime := rfl

theorem addLog_totalOrders (s : BotState) (now : ℤ) (t : LogType) :
    (addLog s now t).totalOrders = s.totalOrders := rfl

/-- C3: for a signal that passes the orchestrator's policy gate, a failed
execution leaves `lastOrderTime` and `totalOrders` unchanged (and the run
flag untouched), while a successful one advances `lastOrderTime` to `now`
and increments the order counter by one. -/
theorem handleSignal_order_accounting (s : BotState) (now : ℤ) (sig : Signal)
    (configured : Bool) (execResult : OrderResult) (cfg : BotConfig)
    (hcfg : s.config = some cfg) (hen : cfg.enabled = true)
    (hscore : ¬ sig.score < (if cfg.minScore = 0 then 60 else cfg.minScore))
    (hcool : ¬ now - s.lastOrderTime < minOrderInterval)
    (hconf : configured = true) :
    ((handleSignal s now sig configured execResult).isRunning = s.isRunning) ∧
    (execResult.success = false →
       (handleSignal s now sig configured execResult).lastOrderTime = s.lastOrderTime ∧
       (handleSignal s now sig configured execResult).totalOrders = s.totalOrders) ∧
    (execResult.success = true →
       (handleSignal s now sig configured execResult).lastOrderTime = now ∧
       (handleSignal s now sig configured execResult).totalOrders = s.totalOrders + 1) := by
  cases hres : execResult.success <;>
    simp [handleSignal, hcfg, hen, hconf, hscore, hcool, hres, addLog_config,
      addLog_isRunning, addLog_lastOrderTime, addLog_totalOrders]

/-- Witness for C3: a concrete gate-passing state, with a failed result. -/
theorem handleSignal_order_accounting_witness :
    (handleSignal exBotState 300000 exSignal true exFailResult).isRunning =
        exBotState.isRunning ∧
    (exFailResult.success = false →
       (handleSignal exBotState 300000 exSignal true exFailResult).lastOrderTime =
           exBotState.lastOrderTime ∧
       (handleSignal exBotState 300000 exSignal true exFailResult).totalOrders =
           exBotState.totalOrders) ∧
    (exFailResult.success = true →
       (handleSignal exBotState 300000 exSignal true exFailResult).lastOrderTime = 300000 ∧
       (handleSignal exBotState 300000 exSignal true exFailResult).totalOrders =
           exBotState.totalOrders + 1) :=
  handleSignal_order_accounting exBotState 300000 exSignal true exFailResult exCfg rfl rfl
    (by norm_num [exSignal, exCfg]) (by decide) rfl

/-- C8 counterexample: at a state with one closed bar (close 100) and no
open bar, `calculateATR` returns 1% of the constant 50000 — that is 500 —
and not 1% of the engine's current price, which is 1. -/
theorem calculateATR_fallback_not_current_price :
    exATRNoOpen.candles.length < 15 ∧
    calculateATR exATRNoOpen 14 ≠ currentPriceOf exATRNoOpen * (1 / 100) ∧
    calculateATR exATRNoOpen 14 = 50000 * (1 / 100) ∧
    currentPriceOf exATRNoOpen = 100 := by
  have hatr : calculateATR exATRNoOpen 14 = 50000 * (1 / 100) := by
    unfold calculateATR
    rw [if_pos (by decide)]
    rfl
  have hprice : currentPriceOf exATRNoOpen = 100 := rfl
  refine ⟨by decide, ?_, hatr, hprice⟩
  rw [hatr, hprice]
  norm_num

/-- C8 amended: with at least 15 closed bars, `calculateATR` (period 14)
is the mean of the 14 true ranges over consecutive pairs of the last 15
bars. With fewer closed bars it returns 1% of the open bar's close when an
open bar with non-zero close exists, and 1% of the constant fallback price
50000 otherwise (no open bar, or an open bar whose close is 0). -/
theorem calculateATR_cases (s : DetectorState) :
    (15 ≤ s.candles.length →
       (atrTrueRanges s).length = 14 ∧
       calculateATR s 14 = (atrTrueRanges s).sum / 14) ∧
    (s.candles.length < 15 → ∀ c, s.currentCandle = some c → c.close ≠ 0 →
       calculateATR s 14 = c.close * (1 / 100)) ∧
    (s.candles.length < 15 → s.currentCandle = none →
       calculateATR s 14 = 50000 * (1 / 100)) ∧
    (s.candles.length < 15 → ∀ c, s.currentCandle = some c → c.close = 0 →
       calculateATR s 14 = 50000 * (1 / 100)) := by
  refine ⟨?_, ?_, ?_, ?_⟩
  · intro h15
    have hlen : (s.candles.drop (s.candles.length - 15)).length = 15 := by
      simp [List.length_drop]; omega
    constructor
    · unfold atrTrueRanges
      simp only [List.length_zipWith, List.length_tail, hlen]
      omega
    · unfold calculateATR atrTrueRanges
      rw [if_neg (by omega)]
      norm_num
  · intro hlt c hc hclose
    unfold calculateATR
    rw [if_pos (by omega)]
    simp only [hc]
    rw [if_neg hclose]
  · intro hlt hc
    unfold calculateATR
    rw [if_pos (by omega)]
    simp only [hc]
  · intro hlt c hc hclose
    unfold calculateATR
    rw [if_pos (by omega)]
    simp only [hc]
    rw [if_pos hclose]

/-- Witness for the amended C8: the mean branch at a 15-bar state, the
open-bar fallback at a 1-bar state with open close 102, and the constant
fallback at a 1-bar state with no open bar. -/
theorem calculateATR_cases_witness :
    (15 ≤ exATR.candles.length ∧
     (atrTrueRanges exATR).length = 14 ∧
     calculateATR exATR 14 = (atrTrueRanges exATR).sum / 14) ∧
    (exATRSmall.candles.length < 15 ∧ exATRSmall.currentCandle = some exOpenCandle ∧
     exOpenCandle.close ≠ 0 ∧ calculateATR exATRSmall 14 = exOpenCandle.close * (1 / 100)) ∧
    (exATRNoOpen.candles.length < 15 ∧ exATRNoOpen.currentCandle = none ∧
     calculateATR exATRNoOpen 14 = 50000 * (1 / 100)) :=
  ⟨⟨by decide, (calculateATR_cases exATR).1 (by decide)⟩,
   ⟨by decide, rfl, by norm_num [exOpenCandle],
    (calculateATR_cases exATRSmall).2.1 (by decide) exOpenCandle rfl
      (by norm_num [exOpenCandle])⟩,
   ⟨by decide, rfl, (calculateATR_cases exATRNoOpen).2.2.1 (by decide) rfl⟩⟩

theorem trendType_eq_none (price ema20 ema50 : ℚ)
    (h1 : ¬(price > ema20 ∧ ema20 > ema50)) (h2 : ¬(price < ema20 ∧ ema20 < ema50)) :
    trendType price ema20 ema50 = none := by
  unfold trendType
  rw [if_neg h1, if_neg h2]

theorem detectSignal_none_of_no_trend (s : DetectorState) (price ema20 ema50 rsi : ℚ)
    (m : MACDResult) (now : ℤ) (h : trendType price ema20 ema50 = none) :
    detectSignal s price ema20 ema50 rsi m now = none := by
  unfold detectSignal
  rw [h]

theorem detectSignal_none_of_low_score (s : DetectorState) (price ema20 ema50 rsi : ℚ)
    (m : MACDResult) (now : ℤ) (h : signalScore price ema20 ema50 rsi m < 60) :
    detectSignal s price ema20 ema50 rsi m now = none := by
  unfold detectSignal
  cases htt : trendType price ema20 ema50 with
  | none => rfl
  | some t => simp only [if_neg (not_le.mpr h)]

/-- C1: no signal is delivered to subscribers when History has fewer than
50 bars, or within `minSignalInterval` of the previous emission, or when
neither directional EMA ordering holds for the run's computed price and
EMAs, or when the run's composite score is below 60. -/
theorem analyzeMarket_no_signal_when_gated (s : DetectorState) (now : ℤ)
    (h : s.candles.length < 50 ∨
         now - s.lastSignalTime < minSignalInterval ∨
         (¬(currentPriceOf s > (analysisIndicators s).1 ∧
              (analysisIndicators s).1 > (analysisIndicators s).2.1) ∧
          ¬(currentPriceOf s < (analysisIndicators s).1 ∧
              (analysisIndicators s).1 < (analysisIndicators s).2.1)) ∨
         signalScore (currentPriceOf s) (analysisIndicators s).1 (analysisIndicators s).2.1
           (analysisIndicators s).2.2.1 (analysisIndicators s).2.2.2 < 60) :
    (analyzeMarket s now).1 = none := by
  unfold analyzeMarket
  by_cases h50 : s.candles.length < 50
  · rw [if_pos h50]
  · rw [if_neg h50]
    by_cases hcool : now - s.lastSignalTime < minSignalInterval
    · rw [if_pos hcool]
    · rw [if_neg hcool]
      rcases h with h | h | ⟨h1, h2⟩ | h
      · exact absurd h h50
      · exact absurd h hcool
      · rw [detectSignal_none_of_no_trend _ _ _ _ _ _ _ (trendType_eq_none _ _ _ h1 h2)]
      · rw [detectSignal_none_of_low_score _ _ _ _ _ _ _ h]

/-- Witness for C1: the empty initial state has fewer than 50 bars. -/
theorem analyzeMarket_no_signal_when_gated_witness :
    initDetector.candles.length < 50 ∧ (analyzeMarket initDetector 0).1 = none :=
  ⟨by decide, analyzeMarket_no_signal_when_gated initDetector 0 (Or.inl (by decide))⟩

/-- Each `processPrice` step preserves the aggregation invariant. -/
theorem processPrice_preserves_inv (s : DetectorState) (price : ℚ) (timestamp : ℤ)
    (h : DetectorInv s) : DetectorInv (processPrice s price timestamp) := by
  obtain ⟨hpw, hlt, hcur, hlen⟩ := h
  simp only [processPrice]
  split_ifs with hgt
  · cases hc : s.currentCandle with
    | none =>
      refine ⟨hpw, ?_, ?_, hlen⟩
      · intro c hcmem
        exact lt_trans (hlt c hcmem) hgt
      · intro c hcc
        cases hcc
        rfl
    | some c =>
      have hclast : c.timestamp = s.lastCandleTime := hcur c hc
      have hpw' : (s.candles ++ [c]).Pairwise (fun a b => a.timestamp < b.timestamp) := by
        rw [List.pairwise_append]
        refine ⟨hpw, List.pairwise_singleton _ _, ?_⟩
        intro a ha b hb
        rw [List.mem_singleton] at hb
        subst hb
        rw [hclast]
        exact hlt a ha
      have hmem : ∀ x ∈ s.candles ++ [c],
          x.timestamp < Int.fdiv timestamp candleInterval * candleInterval := by
        intro x hx
        rcases List.mem_append.mp hx with hx | hx
        · exact lt_trans (hlt x hx) hgt
        · rw [List.mem_singleton] at hx
          subst hx
          rw [hclast]
          exact hgt
      dsimp only
      refine ⟨?_, ?_, ?_, ?_⟩
      · split_ifs with hover
        · exact hpw'.sublist (List.tail_sublist _)
        · exact hpw'
      · intro x hx
        split_ifs at hx with hover
        · exact hmem x ((List.tail_sublist _).subset hx)
        · exact hmem x hx
      · intro x hxx
        cases hxx
        rfl
      · split_ifs with hover
        · simp only [List.length_tail, List.length_append, List.length_singleton]
          simp only [List.length_append, List.length_singleton] at hover
          omega
        · simp only [List.length_append, List.length_singleton] at hover ⊢
          omega
  · cases hc : s.currentCandle with
    | none => exact ⟨hpw, hlt, hcur, hlen⟩
    | some c =>
      refine ⟨hpw, hlt, ?_, hlen⟩
      intro x hxx
      cases hxx
      exact hcur c hc

/-- C5: from the empty aggregator state, after any tick sequence History
has strictly increasing bucket-start timestamps and at most 200 entries. -/
theorem history_strictly_increasing_and_bounded (ticks : List (ℚ × ℤ)) :
    ((runTicks initDetector ticks).candles.Pairwise
        fun a b => a.timestamp < b.timestamp) ∧
    (runTicks initDetector ticks).candles.length ≤ 200 := by
  have hinv : ∀ s, DetectorInv s → DetectorInv (runTicks s ticks) := by
    induction ticks with
    | nil => exact fun s h => h
    | cons t rest ih => exact fun s h => ih _ (processPrice_preserves_inv _ _ _ h)
  have h0 : DetectorInv initDetector := by
    refine ⟨List.Pairwise.nil, ?_, ?_, ?_⟩ <;> simp [initDetector, maxCandles]
  obtain ⟨hpw, -, -, hlen⟩ := hinv _ h0
  exact ⟨hpw, hlen⟩

theorem calculateRSI_flat_hundreds : calculateRSI (List.replicate 50 (100 : ℚ)) 14 = 100 := by
  unfold calculateRSI
  rw [if_neg (by simp)]
  simp [List.drop_replicate, List.tail_replicate, List.zipWith_replicate,
    List.filter_replicate, List.sum_replicate]

theorem calculateRSI_flat_then_drop :
    calculateRSI (List.replicate 50 (100 : ℚ) ++ [50]) 14 = 0 := by
  unfold calculateRSI
  rw [if_neg (by simp)]
  have hlen : (List.replicate 50 (100 : ℚ) ++ [50]).length = 51 := by simp
  have hwin : (List.replicate 50 (100 : ℚ) ++ [50]).drop
        ((List.replicate 50 (100 : ℚ) ++ [50]).length - (14 + 1)) =
      List.replicate 14 (100 : ℚ) ++ [50] := by
    rw [hlen]
    rw [List.drop_append_of_le_length (by simp)]
    simp [List.drop_replicate]
  have htail : (List.replicate 14 (100 : ℚ) ++ [50]).tail =
      List.replicate 13 (100 : ℚ) ++ [50] := by
    rw [show List.replicate 14 (100 : ℚ) = 100 :: List.replicate 13 100 from rfl]
    simp
  have hzip : List.zipWith (fun prev cur => cur - prev) (List.replicate 14 (100 : ℚ) ++ [50])
      (List.replicate 13 (100 : ℚ) ++ [50]) = List.replicate 13 (0 : ℚ) ++ [-50] := by
    rw [show List.replicate 14 (100 : ℚ) ++ [50] = List.replicate 13 (100 : ℚ) ++ [100, 50] by
      rw [List.replicate_succ' 13 (100 : ℚ)]; simp]
    rw [List.zipWith_append _ _ _ _ _ (by simp)]
    simp [List.zipWith_replicate]
    norm_num
  simp only [hwin, htail, hzip, List.filter_append, List.filter_replicate,
    List.sum_replicate]
  norm_num

/-- C6 counterexample: at a concrete state with 50 closed bars and an open
bar whose close differs, the indicators `analyzeMarket` computes (over
History's closes only) differ from the indicators over History's closes
with the open bar's close appended — the RSI components are 100 and 0. -/
theorem analysisIndicators_ne_specIndicators :
    50 ≤ exC6.candles.length ∧ analysisIndicators exC6 ≠ specIndicators exC6 := by
  constructor
  · decide
  · have hc : exC6.candles.map (fun c => c.close) = List.replicate 50 (100 : ℚ) := by
      simp [exC6, exFlatCandle, List.map_replicate]
    have h1 : (analysisIndicators exC6).2.2.1 = 100 := by
      show calculateRSI (exC6.candles.map fun c => c.close) 14 = 100
      rw [hc]
      exact calculateRSI_flat_hundreds
    have hs : specCloses exC6 = List.replicate 50 (100 : ℚ) ++ [50] := by
      simp [specCloses, exC6, exFlatCandle, List.map_replicate]
    have h2 : (specIndicators exC6).2.2.1 = 0 := by
      show calculateRSI (specCloses exC6) 14 = 0
      rw [hs]
      exact calculateRSI_flat_then_drop
    intro h
    rw [h, h2] at h1
    norm_num at h1

/-- C6 amended: on every analysis run that reaches the indicator stage,
the signal decision is made from indicators computed over History's closes
only — the open bar's close is not appended (it enters only through
`currentPriceOf`). -/
theorem analyzeMarket_indicators_over_history_closes (s : DetectorState) (now : ℤ)
    (h50 : ¬ s.candles.length < 50)
    (hcool : ¬ now - s.lastSignalTime < minSignalInterval) :
    (analyzeMarket s now).1 =
      Option.map (fun sig => { sig with timestamp := now })
        (detectSignal s (currentPriceOf s)
          (calculateEMA (s.candles.map fun c => c.close) 20)
          (calculateEMA (s.candles.map fun c => c.close) 50)
          (calculateRSI (s.candles.map fun c => c.close) 14)
          (calculateMACD (s.candles.map fun c => c.close)) now) := by
  unfold analyzeMarket
  rw [if_neg h50, if_neg hcool]
  have hi : analysisIndicators s =
      (calculateEMA (s.candles.map fun c => c.close) 20,
       calculateEMA (s.candles.map fun c => c.close) 50,
       calculateRSI (s.candles.map fun c => c.close) 14,
       calculateMACD (s.candles.map fun c => c.close)) := rfl
  rw [hi]
  cases hd : detectSignal s (currentPriceOf s)
      (calculateEMA (s.candles.map fun c => c.close) 20)
      (calculateEMA (s.candles.map fun c => c.close) 50)
      (calculateRSI (s.candles.map fun c => c.close) 14)
      (calculateMACD (s.candles.map fun c => c.close)) now with
  | none => rfl
  | some sig => rfl

/-- Witness for the amended C6 at a concrete 50-bar state. -/
theorem analyzeMarket_indicators_over_history_closes_witness :
    ¬ exC6.candles.length < 50 ∧
    ¬ (300000 : ℤ) - exC6.lastSignalTime < minSignalInterval ∧
    (analyzeMarket exC6 300000).1 =
      Option.map (fun sig => { sig with timestamp := (300000 : ℤ) })
        (detectSignal exC6 (currentPriceOf exC6)
          (calculateEMA (exC6.candles.map fun c => c.close) 20)
          (calculateEMA (exC6.candles.map fun c => c.close) 50)
          (calculateRSI (exC6.candles.map fun c => c.close) 14)
          (calculateMACD (exC6.candles.map fun c => c.close)) 300000) :=
  ⟨by decide, by decide,
    analyzeMarket_indicators_over_history_closes exC6 300000 (by decide) (by decide)⟩

/-- C7 counterexample: after start, socket open, then socket close (which
schedules a reconnect backoff timer), `stop()` on the price monitor leaves
that one-shot timer pending; likewise `stop()` on the signal detector
leaves the 5s first-analysis timer pending. -/
theorem stop_leaves_untracked_timeouts_pending :
    (pmStop (pmOnClose (pmOnOpen (pmStart pmInit)))).pendingTimeouts ≠ [] ∧
    (sdStop (sdStart sdInit)).pendingTimeouts ≠ [] := by
  constructor <;> decide

/-- C7 amended: `stop()` cancels exactly the interval timers whose handles
the components store — the heartbeat interval on the stream client and the
periodic-analysis interval on the signal engine — and leaves the untracked
one-shot timers (reconnect backoff, reconnect cooldown, first-analysis
delay) pending. -/
theorem stop_cancels_only_tracked_interval_timers (s : MonitorTimerState)
    (t : DetectorTimerState) :
    (pmStop s).pingInterval = none ∧
    (pmStop s).pendingTimeouts = s.pendingTimeouts ∧
    (sdStop t).analysisInterval = none ∧
    (sdStop t).pendingTimeouts = t.pendingTimeouts :=
  ⟨rfl, rfl, rfl, rfl⟩

end BtcAlerts
